import Mathlib

/-!
Verification of the CV skill-gap analyzer (`cv_analyser`).

This file gives a shallow embedding of the pieces of the repository the
frozen claims are about:

* the LLM-response normalizer inside `GroqService.analyze_cv`
  (`src/cv_analyser/services/groq_service.py`, lines 242-489): code-fence
  stripping (Stage 1), key-alias resolution (Stage 2), skill-list shape
  coercion (Stage 3), the semantic-emptiness guard (Stage 4), conversion
  plus pydantic validation (Stage 5), and the catch-all error classifier;
* the pydantic validators of `CVAnalysis` and `YouTubeVideo`
  (`src/cv_analyser/models/schemas.py`);
* the response-handling part of `SerperService.search_youtube_videos`
  (`src/cv_analyser/services/serper_service.py`, lines 76-112).

Python text is modelled as `List Char`; decoded JSON values as the
inductive `J`.  All definitions are executable and structurally
recursive, so concrete runs evaluate by `rfl`/`decide`.
-/

/-! ### Python string primitives -/

/-- The whitespace characters stripped by Python `str.strip()`. -/
def isPySpace (c : Char) : Bool :=
  c == ' ' || c == '\t' || c == '\n' || c == '\x0d' || c == '\x0b' || c == '\x0c'

/-- Left part of Python `str.strip()`: drop leading whitespace. -/
def stripLeft (l : List Char) : List Char := l.dropWhile isPySpace

/-- Right part of Python `str.strip()`: drop trailing whitespace. -/
def stripRight (l : List Char) : List Char := (stripLeft l.reverse).reverse

/-- Python `str.strip()` with no argument: trim whitespace on both ends. -/
def pyStrip (l : List Char) : List Char := stripLeft (stripRight l)

/-- Python `str.lower()` (ASCII view, as used by the error classifier). -/
def lowerL (l : List Char) : List Char := l.map Char.toLower

/-- Python `str.startswith`: first argument is the prefix pattern. -/
def startsW : List Char → List Char → Bool
  | [], _ => true
  | _ :: _, [] => false
  | p :: ps, c :: cs => p == c && startsW ps cs

/-- Python `str.endswith`, via reversal. -/
def endsW (p l : List Char) : Bool := startsW p.reverse l.reverse

/-- Python substring containment (`needle in hay`). -/
def isSub (needle : List Char) : List Char → Bool
  | [] => needle.isEmpty
  | c :: t => startsW needle (c :: t) || isSub needle t

/-- Python slice `l[:-n]` (drop the last `n` characters; empty if shorter). -/
def dropRightN (l : List Char) (n : Nat) : List Char := (l.reverse.drop n).reverse

/-- Decimal digits of a natural number, most significant first. -/
def natDigits (n : Nat) : List Char := Nat.toDigits 10 n

/-- Python `str(i)` for an integer. -/
def intRepr (n : Int) : List Char :=
  if n < 0 then '-' :: natDigits (-n).toNat else natDigits n.toNat

/-- Value of a digit string, used by the model of Python `int(str)`. -/
def digitsToNat (ds : List Char) : Nat :=
  ds.foldl (fun acc c => acc * 10 + (c.toNat - '0'.toNat)) 0

/-- Python `int(s)` on a string: strip whitespace, optional sign, digits. -/
def pyIntOfChars (s : List Char) : Option Int :=
  let t := pyStrip s
  match t with
  | '-' :: rest =>
      if !rest.isEmpty && rest.all Char.isDigit then some (-(digitsToNat rest : Int)) else none
  | '+' :: rest =>
      if !rest.isEmpty && rest.all Char.isDigit then some (digitsToNat rest : Int) else none
  | _ => if !t.isEmpty && t.all Char.isDigit then some (digitsToNat t : Int) else none

/-! ### Decoded JSON values -/

/-- A value decoded from the model's JSON text (Python `json.loads` output):
`None`, `bool`, `int`, `str`, `list`, `dict`. -/
inductive J where
  | null
  | jbool (b : Bool)
  | num (n : Int)
  | str (s : List Char)
  | arr (xs : List J)
  | obj (kvs : List (List Char × J))
deriving Repr

/-- Python truthiness (`bool(v)`) for decoded JSON values. -/
def truthy : J → Bool
  | .null => false
  | .jbool b => b
  | .num n => n != 0
  | .str s => !s.isEmpty
  | .arr xs => !xs.isEmpty
  | .obj kvs => !kvs.isEmpty

/-- Python `a or b` on decoded values: `b` when `a` is falsy, else `a`. -/
def orJ (a b : J) : J := if truthy a then a else b

/-- A decoded JSON object (Python dict), keys assumed distinct. -/
def Payload := List (List Char × J)

/-- Python `d.get(k)`: value under `k`, or `None` when absent. -/
def pyGet (d : Payload) (k : List Char) : J :=
  match d.find? (fun kv => kv.1 == k) with
  | some kv => kv.2
  | none => .null

/-- Python `d.get(k, dflt)`. -/
def pyGetD (d : Payload) (k : List Char) (dflt : J) : J :=
  match d.find? (fun kv => kv.1 == k) with
  | some kv => kv.2
  | none => dflt

/-- Separator-joined rendering used by Python container `repr`. -/
def joinComma : List (List Char) → List Char
  | [] => []
  | [x] => x
  | x :: xs => x ++ rest xs
where rest : List (List Char) → List Char
  | [] => []
  | y :: ys => ',' :: ' ' :: y ++ rest ys

mutual
/-- Python `repr(v)` for decoded JSON values (strings quoted). -/
def pyRepr : J → List Char
  | .null => "None".toList
  | .jbool true => "True".toList
  | .jbool false => "False".toList
  | .num n => intRepr n
  | .str s => '\x27' :: s ++ ['\x27']
  | .arr xs => '[' :: joinComma (pyReprList xs) ++ [']']
  | .obj kvs => '\x7b' :: joinComma (pyReprObj kvs) ++ ['\x7d']

/-- `repr` of the elements of a decoded list. -/
def pyReprList : List J → List (List Char)
  | [] => []
  | x :: xs => pyRepr x :: pyReprList xs

/-- `repr` of the members of a decoded dict. -/
def pyReprObj : List (List Char × J) → List (List Char)
  | [] => []
  | kv :: kvs => ('\x27' :: kv.1 ++ '\x27' :: ':' :: ' ' :: pyRepr kv.2) :: pyReprObj kvs
end

/-- Python `str(v)` for decoded JSON values: a string is itself, anything
else renders as its `repr`. -/
def pyStr : J → List Char
  | .str s => s
  | j => pyRepr j

/-- Python `int(v)` as used on resolved scores: ints pass, bools become
0/1, numeric strings parse, anything else raises (encoded as `none`). -/
def pyInt : J → Option Int
  | .num n => some n
  | .jbool b => some (if b then 1 else 0)
  | .str s => pyIntOfChars s
  | _ => none

/-- The expression `not v or not v.strip()` (groq_service.py lines 419-420):
`some b` is the boolean outcome, `none` the `AttributeError` raised when a
truthy non-string reaches `.strip()`. -/
def pyBlankCheck (v : J) : Option Bool :=
  if truthy v then
    match v with
    | .str s => some (pyStrip s).isEmpty
    | _ => none
  else some true

/-! ### Stage 2 - key-alias resolution (groq_service.py lines 283-342) -/

/-- `overall` (lines 284-290): `or`-chain over the accepted aliases,
hard default `0`. -/
def resolve_overall (d : Payload) : J :=
  orJ (pyGet d "overall_score".toList)
    (orJ (pyGet d "Overall Match Score".toList)
      (orJ (pyGet d "Match Score".toList)
        (orJ (pyGet d "match_score".toList) (.num 0))))

/-- `skills` (lines 292-296). -/
def resolve_skills (d : Payload) : J :=
  orJ (pyGet d "skills_match".toList)
    (orJ (pyGet d "Skills Match".toList) (.num 0))

/-- `experience` (lines 298-302). -/
def resolve_experience (d : Payload) : J :=
  orJ (pyGet d "experience_match".toList)
    (orJ (pyGet d "Experience Match".toList) (.num 0))

/-- `education` (lines 304-308). -/
def resolve_education (d : Payload) : J :=
  orJ (pyGet d "education_match".toList)
    (orJ (pyGet d "Education Match".toList) (.num 0))

/-- `strengths` (lines 310-318), hard default `[]`. -/
def resolve_strengths (d : Payload) : J :=
  orJ (pyGet d "matching_skills".toList)
    (orJ (pyGet d "strong_skills".toList)
      (orJ (pyGet d "matching_strong_skills".toList)
        (orJ (pyGet d "Matching/Strong Skills".toList)
          (orJ (pyGet d "Matching / strong skills".toList)
            (orJ (pyGet d "Matching Skills".toList) (.arr []))))))

/-- `missing` (lines 320-327), hard default `[]`. -/
def resolve_missing (d : Payload) : J :=
  orJ (pyGet d "missing_skills".toList)
    (orJ (pyGet d "missing_weak_skills".toList)
      (orJ (pyGet d "Missing/Weak Skills".toList)
        (orJ (pyGet d "Missing / weak skills".toList)
          (orJ (pyGet d "Missing Skills".toList) (.arr [])))))

/-- `summary` (lines 329-334), hard default `""`. -/
def resolve_summary (d : Payload) : J :=
  orJ (pyGet d "skill_gap_analysis_summary".toList)
    (orJ (pyGet d "Summary".toList)
      (orJ (pyGet d "Skill Gap Summary".toList) (.str [])))

/-- `query` (lines 336-342), hard default `""`. -/
def resolve_query (d : Payload) : J :=
  orJ (pyGet d "youtube_search_query".toList)
    (orJ (pyGet d "Search Query".toList)
      (orJ (pyGet d "YouTube search query".toList)
        (orJ (pyGet d "YouTube Search Query".toList) (.str []))))

/-! ### Stage 4 helper - `_is_truly_empty_list` (lines 353-365) -/

/-- `_is_truly_empty_list(lst)`: empty, or only blank entries, or only
sentinel entries after trimming and lower-casing. -/
def is_truly_empty_list (lst : List J) : Bool :=
  if lst.isEmpty then true
  else
    let cleaned :=
      ((lst.map (fun x => pyStrip (pyStr x))).filter (fun s => !s.isEmpty)).map lowerL
    if cleaned.isEmpty then true
    else if cleaned.all (fun x =>
        x == "not specified".toList || x == "n/a".toList || x == "none".toList) then true
    else false

/-! ### Stage 3 - skill-list shape coercion (lines 367-402) -/

/-- The `name` of a structured skill entry (line 375/393):
`item.get("name") or item.get("skill") or str(item)`. -/
def skill_entry_name (kvs : Payload) : J :=
  orJ (pyGet kvs "name".toList)
    (orJ (pyGet kvs "skill".toList) (.str (pyStr (.obj kvs))))

/-- The f-string `"{name} (importance {importance}/10)"` (lines 378/396). -/
def render_with_importance (name imp : J) : J :=
  .str (pyStr name ++ " (importance ".toList ++ pyStr imp ++ "/10)".toList)

/-- Coercion of one skill-list entry (lines 370-382): strings pass
through; a dict is rendered from its name and optional importance - the
raw `name` value is appended unchanged when `importance` is `None`;
anything else is `str(item)`. -/
def coerce_skill_item : J → J
  | .str s => .str s
  | .obj kvs =>
      match pyGet kvs "importance".toList with
      | .null => skill_entry_name kvs
      | imp => render_with_importance (skill_entry_name kvs) imp
  | j => .str (pyStr j)

/-- Normalization of a whole skill-list value: lists map entrywise, a bare
string wraps into a singleton, any other shape yields `[]`. -/
def normalize_skill_list : J → List J
  | .arr items => items.map coerce_skill_item
  | .str s => [.str s]
  | _ => []

/-! ### The `CVAnalysis` pydantic model (schemas.py lines 9-47) -/

/-- The validated analysis record (`CVAnalysis`). -/
structure CVAnalysis where
  overall_score : Int
  skills_match : Int
  experience_match : Int
  education_match : Int
  strengths : List (List Char)
  missing_skills : List (List Char)
  gaps_analysis : List Char
  youtube_search_query : List Char
deriving Repr, DecidableEq

/-- The sentinel list entry `"Not specified"`. -/
def notSpecifiedStr : List Char := "Not specified".toList

/-- The fixed `gaps_analysis` fallback sentence (schemas.py line 39 and
groq_service.py line 445 are the same string). -/
def gapsFallbackStr : List Char :=
  "Analysis not available. Please review the strengths and missing skills above.".toList

/-- The fixed `youtube_search_query` fallback (schemas.py line 46 and
groq_service.py line 447). -/
def queryFallbackStr : List Char := "skill improvement tutorial".toList

/-- `validate_score` plus the `Field(ge=0, le=100)` bound: out-of-range
raises (encoded as `none`). -/
def validate_score (v : Int) : Option Int :=
  if 0 ≤ v ∧ v ≤ 100 then some v else none

/-- `validate_lists_minimum`: an empty list becomes the sentinel list. -/
def validate_lists_minimum (v : List (List Char)) : List (List Char) :=
  if v = [] then [notSpecifiedStr] else v

/-- `validate_gaps_analysis`: blank or shorter than 10 characters is
replaced by the fixed fallback sentence. -/
def validate_gaps_analysis (v : List Char) : List Char :=
  if v = [] ∨ v.length < 10 then gapsFallbackStr else v

/-- `validate_youtube_query`: blank or shorter than 3 characters is
replaced by the fixed fallback query. -/
def validate_youtube_query (v : List Char) : List Char :=
  if v = [] ∨ v.length < 3 then queryFallbackStr else v

/-- pydantic v1 coercion into a `str` field: strings pass, ints and bools
stringify, `None`/lists/dicts raise (encoded as `none`). -/
def pydantic_str : J → Option (List Char)
  | .str s => some s
  | .num n => some (intRepr n)
  | .jbool true => some "True".toList
  | .jbool false => some "False".toList
  | _ => none

/-- pydantic coercion of a `List[str]` field, element by element. -/
def coerce_str_list : List J → Option (List (List Char))
  | [] => some []
  | j :: js =>
      match pydantic_str j, coerce_str_list js with
      | some s, some rest => some (s :: rest)
      | _, _ => none

/-! ### The normalizer error taxonomy -/

/-- The categorized errors `analyze_cv` raises as `GroqAPIError`, by the
spec's taxonomy: `EmptyAnalysis` is the guard at lines 429-433,
`ValidationFailed` the conversion wrapper at lines 466-469, the remaining
constructors the substring classifier at lines 477-489. -/
inductive GroqError where
  | emptyAnalysis
  | validationFailed
  | malformedResponse
  | authError
  | rateLimited
  | timeoutError
  | modelUnavailable
  | unknown (msg : List Char)
deriving Repr, DecidableEq

/-! ### Stage 5 - conversion and pydantic validation (lines 435-469) -/

/-- `gaps_analysis` entry of `converted_data` (lines 442-446): the
stripped summary when non-blank, else the fallback sentence.  A truthy
non-string summary never reaches here (the blank check at line 419
already raised on it), so that arm returns the fallback. -/
def gaps_converted : J → List Char
  | .str s => if !(pyStrip s).isEmpty then pyStrip s else gapsFallbackStr
  | _ => gapsFallbackStr

/-- `youtube_search_query` entry of `converted_data` (line 447): the query
as-is when truthy, else the fallback.  As above, a truthy non-string
query never reaches here. -/
def query_converted : J → List Char
  | .str s => if !s.isEmpty then s else queryFallbackStr
  | _ => queryFallbackStr

/-- Lines 435-454: build `converted_data` and run it through the
`CVAnalysis` validators in field order; any raise inside this block is
re-raised as the `ValidationFailed` category (lines 466-469). -/
def convert_and_validate (o s e ed : Int) (sn mn : List J) (summary query : J) :
    Except GroqError CVAnalysis :=
  match validate_score o with
  | none => .error .validationFailed
  | some o2 =>
  match validate_score s with
  | none => .error .validationFailed
  | some s2 =>
  match validate_score e with
  | none => .error .validationFailed
  | some e2 =>
  match validate_score ed with
  | none => .error .validationFailed
  | some ed2 =>
  match coerce_str_list (if sn.isEmpty then [J.str notSpecifiedStr] else sn) with
  | none => .error .validationFailed
  | some sl =>
  match coerce_str_list (if mn.isEmpty then [J.str notSpecifiedStr] else mn) with
  | none => .error .validationFailed
  | some ml =>
  .ok { overall_score := o2, skills_match := s2, experience_match := e2,
        education_match := ed2,
        strengths := validate_lists_minimum sl,
        missing_skills := validate_lists_minimum ml,
        gaps_analysis := validate_gaps_analysis (gaps_converted summary),
        youtube_search_query := validate_youtube_query (query_converted query) }

/-- The normalizer of `analyze_cv` after JSON recovery (lines 282-469):
alias resolution, shape coercion, the `int()` casts of the zero check,
the blank checks, the semantic-emptiness guard, then conversion and
validation.  Exceptions inside the conversion block surface as the
`ValidationFailed` category. -/
def analyze_cv_convert (d : Payload) : Except GroqError CVAnalysis :=
  match pyInt (resolve_overall d) with
  | none => .error .validationFailed
  | some o =>
  match pyInt (resolve_skills d) with
  | none => .error .validationFailed
  | some s =>
  match pyInt (resolve_experience d) with
  | none => .error .validationFailed
  | some e =>
  match pyInt (resolve_education d) with
  | none => .error .validationFailed
  | some ed =>
  match pyBlankCheck (resolve_summary d) with
  | none => .error .validationFailed
  | some empty_summary =>
  match pyBlankCheck (resolve_query d) with
  | none => .error .validationFailed
  | some empty_query =>
  if o == 0 && s == 0 && e == 0 && ed == 0
      && is_truly_empty_list (normalize_skill_list (resolve_strengths d))
      && is_truly_empty_list (normalize_skill_list (resolve_missing d))
      && empty_summary && empty_query
  then .error .emptyAnalysis
  else convert_and_validate o s e ed
    (normalize_skill_list (resolve_strengths d))
    (normalize_skill_list (resolve_missing d))
    (resolve_summary d) (resolve_query d)

deriving instance DecidableEq for Except

/-! ### Stage 1 - code-fence stripping (groq_service.py lines 242-250) -/

/-- The backtick character. -/
def bq : Char := Char.ofNat 96

/-- The 7-character fence marker stripped first (`"\x60\x60\x60json"`). -/
def jsonFenceMark : List Char := [bq, bq, bq, 'j', 's', 'o', 'n']

/-- The bare 3-character fence marker. -/
def fenceMark : List Char := [bq, bq, bq]

/-- Line 244-245: drop a leading `json` fence (7 characters). -/
def fence_step1 (c : List Char) : List Char :=
  if startsW jsonFenceMark c then c.drop 7 else c

/-- Line 246-247: drop a leading bare fence (3 characters). -/
def fence_step2 (c : List Char) : List Char :=
  if startsW fenceMark c then c.drop 3 else c

/-- Line 248-249: drop a trailing fence (3 characters). -/
def fence_step3 (c : List Char) : List Char :=
  if endsW fenceMark c then dropRightN c 3 else c

/-- The text cleaning of Stage 1 (lines 243-250): strip, drop a leading
json fence, drop a leading bare fence, drop a trailing fence, strip
again.  `json.loads` is then applied to this cleaned text, so two inputs
with the same cleaned text parse to the same object. -/
def stage1_clean (t : List Char) : List Char :=
  pyStrip (fence_step3 (fence_step2 (fence_step1 (pyStrip t))))

/-! ### The catch-all error classifier (groq_service.py lines 473-489) -/

/-- Classification of a non-`GroqAPIError` failure message by
case-insensitive substring containment, in the if/elif order of the
source; an unmatched message keeps the original text inside
`"Analysis failed: ..."`. -/
def classify_error (msg : List Char) : GroqError :=
  let m := lowerL msg
  if isSub "authentication".toList m || isSub "api key".toList m || isSub "401".toList m then
    .authError
  else if isSub "rate limit".toList m || isSub "429".toList m then .rateLimited
  else if isSub "timeout".toList m then .timeoutError
  else if isSub "model".toList m && isSub "not found".toList m then .modelUnavailable
  else .unknown ("Analysis failed: ".toList ++ msg)

/-! ### The search adapter (serper_service.py lines 76-112, schemas.py 50-64) -/

/-- The `YouTubeVideo` pydantic model. -/
structure YouTubeVideo where
  title : List Char
  link : List Char
  channel : List Char
  duration : List Char
  thumbnail : Option (List Char)
deriving Repr, DecidableEq

/-- The search adapter's failure modes: non-200 upstream status
(lines 76-85), or a raise outside the per-entry recovery (line 122). -/
inductive SerperError where
  | apiError (status : Nat)
  | searchFailed
deriving Repr, DecidableEq

/-- `validate_youtube_link`: raises (encoded `none`) when the link is
truthy and contains neither host token as a substring. -/
def validate_youtube_link (v : List Char) : Option (List Char) :=
  if !v.isEmpty && !(isSub "youtube.com".toList v || isSub "youtu.be".toList v) then none
  else some v

/-- Construction of one `YouTubeVideo` from one raw entry (lines 98-104),
defaults included; any raise inside it - a failed field coercion or the
link validator - is caught and the entry skipped (`none`). -/
def mk_video (entry : J) : Option YouTubeVideo :=
  match entry with
  | .obj kvs =>
      (pydantic_str (pyGetD kvs "title".toList (.str "N/A".toList))).bind (fun t =>
      (pydantic_str (pyGetD kvs "link".toList (.str "#".toList))).bind (fun l =>
      (pydantic_str (pyGetD kvs "channel".toList (.str "N/A".toList))).bind (fun c =>
      (pydantic_str (pyGetD kvs "duration".toList (.str "N/A".toList))).bind (fun du =>
      (validate_youtube_link l).bind (fun l2 =>
      match pyGetD kvs "imageUrl".toList .null with
      | .null => some ⟨t, l2, c, du, none⟩
      | v => (pydantic_str v).map (fun th => ⟨t, l2, c, du, some th⟩))))))
  | _ => none

/-- The response-handling part of `search_youtube_videos`: non-200 status
raises `SerperAPIError` (the status is carried for reference); a missing
`videos` key yields `[]`; a list value is truncated to `num_results` and
built entrywise, skipping entries that fail; slicing a string value
yields characters that all fail entry construction; slicing any other
value raises, caught at line 118 as `"Search failed"`. -/
def search_youtube_videos (status : Nat) (results : Payload) (num_results : Nat) :
    Except SerperError (List YouTubeVideo) :=
  if status ≠ 200 then .error (.apiError status)
  else
    match ((results.find? (fun kv => kv.1 == "videos".toList)).map (fun kv => kv.2) : Option J) with
    | none => .ok []
    | some (.arr vids) => .ok ((vids.take num_results).filterMap mk_video)
    | some (.str _) => .ok []
    | some _ => .error .searchFailed

/-! ### Helper lemmas about the conversion block -/

/-- The conversion block can only succeed or fail with the
`ValidationFailed` category; the emptiness guard sits before it. -/
theorem convert_ne_empty (o s e ed : Int) (sn mn : List J) (su qu : J) :
    convert_and_validate o s e ed sn mn su qu ≠ .error .emptyAnalysis := by
  unfold convert_and_validate
  repeat' split
  all_goals simp

/-- A score that survives `validate_score` is unchanged and in range. -/
theorem validate_score_some {v w : Int} (h : validate_score v = some w) :
    w = v ∧ 0 ≤ v ∧ v ≤ 100 := by
  unfold validate_score at h
  split at h
  · rename_i hr
    exact ⟨(Option.some.injEq _ _ ▸ h).symm, hr⟩
  · simp at h

/-- An out-of-range score is rejected by `validate_score`. -/
theorem validate_score_out {v : Int} (h : v < 0 ∨ 100 < v) :
    validate_score v = none := by
  unfold validate_score
  split
  · rename_i hr
    rcases h with h | h
    · exact absurd hr.1 (by omega)
    · exact absurd hr.2 (by omega)
  · rfl

/-- `validate_lists_minimum` never returns an empty list. -/
theorem validate_lists_minimum_ne_nil (l : List (List Char)) :
    validate_lists_minimum l ≠ [] := by
  unfold validate_lists_minimum
  split
  · simp
  · rename_i h
    simpa using h

/-! ### Claims C1 and C2 - the emptiness guard and score range -/

/-- Claim C1: the normalizer fails with the `EmptyAnalysis` category
exactly when all four resolved scores cast to 0, both normalized skill
lists are truly empty (empty or sentinel-only after trimming and
lower-casing), and the resolved summary and query are blank; if any one
of these five conditions fails, the guard does not fire (the outcome is
either a success or a different error category). -/
theorem C1_empty_analysis_guard (d : Payload) :
    analyze_cv_convert d = .error .emptyAnalysis ↔
      (pyInt (resolve_overall d) = some 0 ∧ pyInt (resolve_skills d) = some 0 ∧
       pyInt (resolve_experience d) = some 0 ∧ pyInt (resolve_education d) = some 0 ∧
       is_truly_empty_list (normalize_skill_list (resolve_strengths d)) = true ∧
       is_truly_empty_list (normalize_skill_list (resolve_missing d)) = true ∧
       pyBlankCheck (resolve_summary d) = some true ∧
       pyBlankCheck (resolve_query d) = some true) := by
  rcases h1 : pyInt (resolve_overall d) with _ | o
  · simp [analyze_cv_convert, h1]
  rcases h2 : pyInt (resolve_skills d) with _ | s
  · simp [analyze_cv_convert, h1, h2]
  rcases h3 : pyInt (resolve_experience d) with _ | e
  · simp [analyze_cv_convert, h1, h2, h3]
  rcases h4 : pyInt (resolve_education d) with _ | ed
  · simp [analyze_cv_convert, h1, h2, h3, h4]
  rcases h5 : pyBlankCheck (resolve_summary d) with _ | es1
  · simp [analyze_cv_convert, h1, h2, h3, h4, h5]
  rcases h6 : pyBlankCheck (resolve_query d) with _ | es2
  · simp [analyze_cv_convert, h1, h2, h3, h4, h5, h6]
  by_cases hguard : (o == 0 && s == 0 && e == 0 && ed == 0
      && is_truly_empty_list (normalize_skill_list (resolve_strengths d))
      && is_truly_empty_list (normalize_skill_list (resolve_missing d))
      && es1 && es2) = true
  · simp only [Bool.and_eq_true, beq_iff_eq] at hguard
    obtain ⟨⟨⟨⟨⟨⟨⟨ho, hs⟩, he⟩, hed⟩, hst⟩, hmi⟩, hes⟩, heq2⟩ := hguard
    subst ho hs he hed hes heq2
    simp [analyze_cv_convert, h1, h2, h3, h4, h5, h6, hst, hmi]
  · constructor
    · intro hcontra
      rw [show analyze_cv_convert d = convert_and_validate o s e ed
            (normalize_skill_list (resolve_strengths d))
            (normalize_skill_list (resolve_missing d))
            (resolve_summary d) (resolve_query d) from by
          simp [analyze_cv_convert, h1, h2, h3, h4, h5, h6, hguard]] at hcontra
      exact absurd hcontra (convert_ne_empty _ _ _ _ _ _ _ _)
    · rintro ⟨c1, c2, c3, c4, c5, c6, c7, c8⟩
      exfalso
      apply hguard
      have ho : o = 0 := Option.some.inj c1
      have hs : s = 0 := Option.some.inj c2
      have he : e = 0 := Option.some.inj c3
      have hed : ed = 0 := Option.some.inj c4
      have hes : es1 = true := Option.some.inj c7
      have heq2 : es2 = true := Option.some.inj c8
      subst ho
      subst hs
      subst he
      subst hed
      subst hes
      subst heq2
      simp [c5, c6]

/-- The conversion block rejects with the `ValidationFailed` category as
soon as any of its four scores is out of range. -/
theorem convert_out (o s e ed : Int) (sn mn : List J) (su qu : J)
    (h : (o < 0 ∨ 100 < o) ∨ (s < 0 ∨ 100 < s) ∨ (e < 0 ∨ 100 < e) ∨ (ed < 0 ∨ 100 < ed)) :
    convert_and_validate o s e ed sn mn su qu = .error .validationFailed := by
  unfold convert_and_validate
  rcases h with h | h | h | h
  · rw [validate_score_out h]
  · cases hvo : validate_score o <;> simp [validate_score_out h]
  · cases hvo : validate_score o <;> cases hvs : validate_score s <;>
      simp [validate_score_out h]
  · cases hvo : validate_score o <;> cases hvs : validate_score s <;>
      cases hve : validate_score e <;> simp [validate_score_out h]

/-- Claim C2: whenever any of the four resolved scores casts to an
integer outside `[0, 100]`, the normalizer fails with the
`ValidationFailed` category - the score is rejected, never clamped. -/
theorem C2_out_of_range_rejected (d : Payload) (v : Int)
    (hres : pyInt (resolve_overall d) = some v ∨ pyInt (resolve_skills d) = some v ∨
            pyInt (resolve_experience d) = some v ∨ pyInt (resolve_education d) = some v)
    (hout : v < 0 ∨ 100 < v) :
    analyze_cv_convert d = .error .validationFailed := by
  rcases h1 : pyInt (resolve_overall d) with _ | o
  · simp [analyze_cv_convert, h1]
  rcases h2 : pyInt (resolve_skills d) with _ | s
  · simp [analyze_cv_convert, h1, h2]
  rcases h3 : pyInt (resolve_experience d) with _ | e
  · simp [analyze_cv_convert, h1, h2, h3]
  rcases h4 : pyInt (resolve_education d) with _ | ed
  · simp [analyze_cv_convert, h1, h2, h3, h4]
  rcases h5 : pyBlankCheck (resolve_summary d) with _ | es1
  · simp [analyze_cv_convert, h1, h2, h3, h4, h5]
  rcases h6 : pyBlankCheck (resolve_query d) with _ | es2
  · simp [analyze_cv_convert, h1, h2, h3, h4, h5, h6]
  by_cases hguard : (o == 0 && s == 0 && e == 0 && ed == 0
      && is_truly_empty_list (normalize_skill_list (resolve_strengths d))
      && is_truly_empty_list (normalize_skill_list (resolve_missing d))
      && es1 && es2) = true
  · exfalso
    simp only [Bool.and_eq_true, beq_iff_eq] at hguard
    obtain ⟨⟨⟨⟨⟨⟨⟨ho, hs⟩, he⟩, hed⟩, -⟩, -⟩, -⟩, -⟩ := hguard
    rcases hres with hc | hc | hc | hc
    · have hv := Option.some.inj (h1.symm.trans hc)
      rcases hout with hh | hh <;> omega
    · have hv := Option.some.inj (h2.symm.trans hc)
      rcases hout with hh | hh <;> omega
    · have hv := Option.some.inj (h3.symm.trans hc)
      rcases hout with hh | hh <;> omega
    · have hv := Option.some.inj (h4.symm.trans hc)
      rcases hout with hh | hh <;> omega
  · rw [show analyze_cv_convert d = convert_and_validate o s e ed
        (normalize_skill_list (resolve_strengths d))
        (normalize_skill_list (resolve_missing d))
        (resolve_summary d) (resolve_query d) from by
      simp [analyze_cv_convert, h1, h2, h3, h4, h5, h6, hguard]]
    apply convert_out
    rcases hres with hc | hc | hc | hc
    · exact Or.inl (Option.some.inj (h1.symm.trans hc) ▸ hout)
    · exact Or.inr (Or.inl (Option.some.inj (h2.symm.trans hc) ▸ hout))
    · exact Or.inr (Or.inr (Or.inl (Option.some.inj (h3.symm.trans hc) ▸ hout)))
    · exact Or.inr (Or.inr (Or.inr (Option.some.inj (h4.symm.trans hc) ▸ hout)))

/-- A payload whose `overall_score` is 150, for the C2 witness. -/
def d150 : Payload := [("overall_score".toList, .num 150)]

/-- Witness for C2: at the concrete payload with `overall_score = 150`
the hypotheses hold and the normalizer rejects. -/
theorem C2_witness :
    pyInt (resolve_overall d150) = some 150 ∧ ((150 : Int) < 0 ∨ 100 < (150 : Int)) ∧
    analyze_cv_convert d150 = .error .validationFailed :=
  ⟨rfl, by decide, C2_out_of_range_rejected d150 150 (Or.inl rfl) (by decide)⟩

/-! ### Claim C3 - invariants of a successfully returned record -/

/-- Decomposition of a successful conversion: field values, score bounds,
and the validator outputs. -/
theorem convert_ok_shape {o s e ed : Int} {sn mn : List J} {su qu : J} {r : CVAnalysis}
    (h : convert_and_validate o s e ed sn mn su qu = .ok r) :
    (r.overall_score = o ∧ 0 ≤ o ∧ o ≤ 100) ∧
    (r.skills_match = s ∧ 0 ≤ s ∧ s ≤ 100) ∧
    (r.experience_match = e ∧ 0 ≤ e ∧ e ≤ 100) ∧
    (r.education_match = ed ∧ 0 ≤ ed ∧ ed ≤ 100) ∧
    (∃ sl, coerce_str_list (if sn.isEmpty then [J.str notSpecifiedStr] else sn) = some sl ∧
      r.strengths = validate_lists_minimum sl) ∧
    (∃ ml, coerce_str_list (if mn.isEmpty then [J.str notSpecifiedStr] else mn) = some ml ∧
      r.missing_skills = validate_lists_minimum ml) ∧
    r.gaps_analysis = validate_gaps_analysis (gaps_converted su) ∧
    r.youtube_search_query = validate_youtube_query (query_converted qu) := by
  unfold convert_and_validate at h
  rcases hvo : validate_score o with _ | o2
  · simp only [hvo] at h
    simp at h
  · simp only [hvo] at h
    rcases hvs : validate_score s with _ | s2
    · simp only [hvs] at h
      simp at h
    · simp only [hvs] at h
      rcases hve : validate_score e with _ | e2
      · simp only [hve] at h
        simp at h
      · simp only [hve] at h
        rcases hved : validate_score ed with _ | ed2
        · simp only [hved] at h
          simp at h
        · simp only [hved] at h
          rcases hsl : coerce_str_list (if sn.isEmpty then [J.str notSpecifiedStr] else sn)
            with _ | sl
          · simp only [hsl] at h
            simp at h
          · simp only [hsl] at h
            rcases hml : coerce_str_list (if mn.isEmpty then [J.str notSpecifiedStr] else mn)
              with _ | ml
            · simp only [hml] at h
              simp at h
            · simp only [hml] at h
              injection h with h
              subst h
              obtain ⟨ho, hob⟩ := validate_score_some hvo
              obtain ⟨hs, hsb⟩ := validate_score_some hvs
              obtain ⟨he, heb⟩ := validate_score_some hve
              obtain ⟨hed, hedb⟩ := validate_score_some hved
              subst ho
              subst hs
              subst he
              subst hed
              exact ⟨⟨rfl, hob⟩, ⟨rfl, hsb⟩, ⟨rfl, heb⟩, ⟨rfl, hedb⟩,
                ⟨sl, rfl, rfl⟩, ⟨ml, rfl, rfl⟩, rfl, rfl⟩

/-- A success of the full normalizer factors through a success of the
conversion block, with all pre-guard casts succeeding. -/
theorem analyze_ok_shape {d : Payload} {r : CVAnalysis} (h : analyze_cv_convert d = .ok r) :
    ∃ o s e ed,
      pyInt (resolve_overall d) = some o ∧ pyInt (resolve_skills d) = some s ∧
      pyInt (resolve_experience d) = some e ∧ pyInt (resolve_education d) = some ed ∧
      convert_and_validate o s e ed (normalize_skill_list (resolve_strengths d))
        (normalize_skill_list (resolve_missing d)) (resolve_summary d) (resolve_query d)
        = .ok r := by
  unfold analyze_cv_convert at h
  rcases h1 : pyInt (resolve_overall d) with _ | o
  · simp only [h1] at h
    simp at h
  · simp only [h1] at h
    rcases h2 : pyInt (resolve_skills d) with _ | s
    · simp only [h2] at h
      simp at h
    · simp only [h2] at h
      rcases h3 : pyInt (resolve_experience d) with _ | e
      · simp only [h3] at h
        simp at h
      · simp only [h3] at h
        rcases h4 : pyInt (resolve_education d) with _ | ed
        · simp only [h4] at h
          simp at h
        · simp only [h4] at h
          rcases h5 : pyBlankCheck (resolve_summary d) with _ | es1
          · simp only [h5] at h
            simp at h
          · simp only [h5] at h
            rcases h6 : pyBlankCheck (resolve_query d) with _ | es2
            · simp only [h6] at h
              simp at h
            · simp only [h6] at h
              by_cases hguard : (o == 0 && s == 0 && e == 0 && ed == 0
                  && is_truly_empty_list (normalize_skill_list (resolve_strengths d))
                  && is_truly_empty_list (normalize_skill_list (resolve_missing d))
                  && es1 && es2) = true
              · rw [if_pos hguard] at h
                simp at h
              · rw [if_neg hguard] at h
                exact ⟨o, s, e, ed, rfl, rfl, rfl, rfl, h⟩

/-- Claim C3 (amended): every record the normalizer successfully returns
has all four scores in `[0, 100]` and non-empty `strengths` and
`missing_skills`, an empty normalized list having been replaced by the
single sentinel `["Not specified"]`.  (The original claim's further
requirement that every list element be a non-empty string fails; see the
counterexample.) -/
theorem C3_result_invariants (d : Payload) (r : CVAnalysis)
    (h : analyze_cv_convert d = .ok r) :
    (0 ≤ r.overall_score ∧ r.overall_score ≤ 100) ∧
    (0 ≤ r.skills_match ∧ r.skills_match ≤ 100) ∧
    (0 ≤ r.experience_match ∧ r.experience_match ≤ 100) ∧
    (0 ≤ r.education_match ∧ r.education_match ≤ 100) ∧
    r.strengths ≠ [] ∧ r.missing_skills ≠ [] ∧
    (normalize_skill_list (resolve_strengths d) = [] → r.strengths = [notSpecifiedStr]) ∧
    (normalize_skill_list (resolve_missing d) = [] → r.missing_skills = [notSpecifiedStr]) := by
  obtain ⟨o, s, e, ed, h1, h2, h3, h4, hc⟩ := analyze_ok_shape h
  obtain ⟨⟨ho, hob1, hob2⟩, ⟨hs, hsb1, hsb2⟩, ⟨he, heb1, heb2⟩, ⟨hed, hedb1, hedb2⟩,
    ⟨sl, hsl, hstr⟩, ⟨ml, hml, hmis⟩, hgaps, hquery⟩ := convert_ok_shape hc
  refine ⟨⟨by omega, by omega⟩, ⟨by omega, by omega⟩, ⟨by omega, by omega⟩,
    ⟨by omega, by omega⟩, ?_, ?_, ?_, ?_⟩
  · rw [hstr]
    exact validate_lists_minimum_ne_nil sl
  · rw [hmis]
    exact validate_lists_minimum_ne_nil ml
  · intro hnil
    rw [hnil] at hsl
    have hbase : coerce_str_list (if ([] : List J).isEmpty then [J.str notSpecifiedStr] else [])
        = some [notSpecifiedStr] := rfl
    have hsl2 : sl = [notSpecifiedStr] := (Option.some.inj (hbase.symm.trans hsl)).symm
    rw [hstr, hsl2]
    rfl
  · intro hnil
    rw [hnil] at hml
    have hbase : coerce_str_list (if ([] : List J).isEmpty then [J.str notSpecifiedStr] else [])
        = some [notSpecifiedStr] := rfl
    have hml2 : ml = [notSpecifiedStr] := (Option.some.inj (hbase.symm.trans hml)).symm
    rw [hmis, hml2]
    rfl

/-- A payload with valid scores whose `matching_skills` list holds one
empty string. -/
def dC3 : Payload :=
  [("overall_score".toList, .num 50), ("skills_match".toList, .num 60),
   ("experience_match".toList, .num 70), ("education_match".toList, .num 80),
   ("matching_skills".toList, .arr [.str []]),
   ("missing_skills".toList, .arr [.str "Kubernetes".toList]),
   ("skill_gap_analysis_summary".toList, .str "The candidate shows a solid foundation.".toList),
   ("youtube_search_query".toList, .str "Kubernetes tutorial".toList)]

/-- The record the normalizer returns for `dC3`. -/
def resC3 : CVAnalysis :=
  { overall_score := 50, skills_match := 60, experience_match := 70, education_match := 80,
    strengths := [[]], missing_skills := ["Kubernetes".toList],
    gaps_analysis := "The candidate shows a solid foundation.".toList,
    youtube_search_query := "Kubernetes tutorial".toList }

/-- Counterexample to C3 as stated: the normalizer succeeds on `dC3` and
the returned record's `strengths` contains the empty string, so the
returned lists are not sequences of non-empty strings. -/
theorem C3_counterexample :
    analyze_cv_convert dC3 = .ok resC3 ∧ ([] : List Char) ∈ resC3.strengths := by
  constructor
  · decide
  · decide

/-- A well-formed payload with no `matching_skills` key, exercising the
sentinel fallback, for the C3 witness. -/
def dW3 : Payload :=
  [("overall_score".toList, .num 68), ("skills_match".toList, .num 72),
   ("experience_match".toList, .num 65), ("education_match".toList, .num 80),
   ("missing_skills".toList, .arr [.str "Kubernetes".toList]),
   ("skill_gap_analysis_summary".toList, .str "A sufficiently long narrative text.".toList),
   ("youtube_search_query".toList, .str "Kubernetes tutorial".toList)]

/-- The record the normalizer returns for `dW3`. -/
def rW3 : CVAnalysis :=
  { overall_score := 68, skills_match := 72, experience_match := 65, education_match := 80,
    strengths := [notSpecifiedStr], missing_skills := ["Kubernetes".toList],
    gaps_analysis := "A sufficiently long narrative text.".toList,
    youtube_search_query := "Kubernetes tutorial".toList }

/-- Witness for the amended C3 at the concrete payload `dW3`. -/
theorem C3_witness :
    analyze_cv_convert dW3 = .ok rW3 ∧
    ((0 ≤ rW3.overall_score ∧ rW3.overall_score ≤ 100) ∧
     (0 ≤ rW3.skills_match ∧ rW3.skills_match ≤ 100) ∧
     (0 ≤ rW3.experience_match ∧ rW3.experience_match ≤ 100) ∧
     (0 ≤ rW3.education_match ∧ rW3.education_match ≤ 100) ∧
     rW3.strengths ≠ [] ∧ rW3.missing_skills ≠ [] ∧
     (normalize_skill_list (resolve_strengths dW3) = [] → rW3.strengths = [notSpecifiedStr]) ∧
     (normalize_skill_list (resolve_missing dW3) = [] → rW3.missing_skills = [notSpecifiedStr])) :=
  ⟨by decide, C3_result_invariants dW3 rW3 (by decide)⟩

/-! ### Claim C8 - summary and query fallbacks -/

/-- Combined effect of the conversion entry and the pydantic validator on
the summary: the stripped summary survives exactly when it has at least
10 characters, else the fixed fallback sentence replaces it. -/
theorem gaps_final (su : List Char) :
    validate_gaps_analysis (gaps_converted (.str su)) =
      if 10 ≤ (pyStrip su).length then pyStrip su else gapsFallbackStr := by
  have hgc : gaps_converted (.str su)
      = if !(pyStrip su).isEmpty then pyStrip su else gapsFallbackStr := rfl
  rw [hgc]
  rcases hp : pyStrip su with _ | ⟨c, t⟩
  · decide
  · have hred : (if (!(c :: t : List Char).isEmpty) = true then (c :: t : List Char)
        else gapsFallbackStr) = c :: t := by simp
    rw [hred]
    unfold validate_gaps_analysis
    by_cases hl : (c :: t : List Char).length < 10
    · rw [if_pos (Or.inr hl)]
      rw [if_neg (by omega)]
    · rw [if_neg (by simp only [not_or]; exact ⟨by simp, hl⟩)]
      rw [if_pos (by omega)]

/-- Combined effect on the query: the query survives unstripped exactly
when it has at least 3 characters, else the fixed fallback replaces it. -/
theorem query_final (qu : List Char) :
    validate_youtube_query (query_converted (.str qu)) =
      if 3 ≤ qu.length then qu else queryFallbackStr := by
  have hqc : query_converted (.str qu)
      = if !qu.isEmpty then qu else queryFallbackStr := rfl
  rw [hqc]
  rcases qu with _ | ⟨c, t⟩
  · decide
  · have hred : (if (!(c :: t : List Char).isEmpty) = true then (c :: t : List Char)
        else queryFallbackStr) = c :: t := by simp
    rw [hred]
    unfold validate_youtube_query
    by_cases hl : (c :: t : List Char).length < 3
    · rw [if_pos (Or.inr hl)]
      rw [if_neg (by omega)]
    · rw [if_neg (by simp only [not_or]; exact ⟨by simp, hl⟩)]
      rw [if_pos (by omega)]

/-- Claim C8 (amended): in every successfully returned record the
summary is the stripped resolved summary when that has at least 10
characters and the fixed fallback sentence otherwise, and the query is
the resolved query itself when it has at least 3 characters (its length
measured without stripping, so a whitespace-only query of length at
least 3 survives) and the fixed fallback query otherwise. -/
theorem C8_fallback_rules (d : Payload) (r : CVAnalysis)
    (h : analyze_cv_convert d = .ok r) :
    (∀ su, resolve_summary d = .str su →
      r.gaps_analysis = if 10 ≤ (pyStrip su).length then pyStrip su else gapsFallbackStr) ∧
    (∀ qu, resolve_query d = .str qu →
      r.youtube_search_query = if 3 ≤ qu.length then qu else queryFallbackStr) := by
  obtain ⟨o, s, e, ed, h1, h2, h3, h4, hc⟩ := analyze_ok_shape h
  obtain ⟨-, -, -, -, -, -, hgaps, hquery⟩ := convert_ok_shape hc
  constructor
  · intro su hsu
    rw [hgaps, hsu, gaps_final]
  · intro qu hqu
    rw [hquery, hqu, query_final]

/-- A payload with valid scores and a whitespace-only three-character
query. -/
def dC8 : Payload :=
  [("overall_score".toList, .num 50), ("skills_match".toList, .num 60),
   ("experience_match".toList, .num 70), ("education_match".toList, .num 80),
   ("matching_skills".toList, .arr [.str "Python".toList]),
   ("missing_skills".toList, .arr [.str "Kubernetes".toList]),
   ("skill_gap_analysis_summary".toList, .str "The candidate shows a solid foundation.".toList),
   ("youtube_search_query".toList, .str "   ".toList)]

/-- The record the normalizer returns for `dC8`: the three-space query
survives verbatim. -/
def resC8 : CVAnalysis :=
  { overall_score := 50, skills_match := 60, experience_match := 70, education_match := 80,
    strengths := ["Python".toList], missing_skills := ["Kubernetes".toList],
    gaps_analysis := "The candidate shows a solid foundation.".toList,
    youtube_search_query := "   ".toList }

/-- Counterexample to C8 as stated: on `dC8` the normalizer succeeds and
the returned query is the blank (whitespace-only) string `"   "`, which
the claim says is always replaced and never survives. -/
theorem C8_counterexample :
    analyze_cv_convert dC8 = .ok resC8 ∧
    resC8.youtube_search_query = "   ".toList ∧
    pyStrip "   ".toList = [] := by
  refine ⟨by decide, by decide, by decide⟩

/-- A payload whose summary is shorter than 10 characters and whose query
is shorter than 3, for the C8 witness. -/
def dW8 : Payload :=
  [("overall_score".toList, .num 40), ("skills_match".toList, .num 45),
   ("experience_match".toList, .num 50), ("education_match".toList, .num 55),
   ("matching_skills".toList, .arr [.str "SQL".toList]),
   ("missing_skills".toList, .arr [.str "Spark".toList]),
   ("skill_gap_analysis_summary".toList, .str "short".toList),
   ("youtube_search_query".toList, .str "ok".toList)]

/-- The record the normalizer returns for `dW8`: both fallbacks fire. -/
def rW8 : CVAnalysis :=
  { overall_score := 40, skills_match := 45, experience_match := 50, education_match := 55,
    strengths := ["SQL".toList], missing_skills := ["Spark".toList],
    gaps_analysis := gapsFallbackStr,
    youtube_search_query := queryFallbackStr }

/-- Witness for the amended C8 at the concrete payload `dW8`. -/
theorem C8_witness :
    analyze_cv_convert dW8 = .ok rW8 ∧
    resolve_summary dW8 = .str "short".toList ∧
    rW8.gaps_analysis
      = (if 10 ≤ (pyStrip "short".toList).length then pyStrip "short".toList
         else gapsFallbackStr) ∧
    resolve_query dW8 = .str "ok".toList ∧
    rW8.youtube_search_query
      = (if 3 ≤ ("ok".toList).length then "ok".toList else queryFallbackStr) :=
  ⟨by decide, rfl,
   (C8_fallback_rules dW8 rW8 (by decide)).1 "short".toList rfl, rfl,
   (C8_fallback_rules dW8 rW8 (by decide)).2 "ok".toList rfl⟩

/-! ### Claim C4 - key-alias resolution -/

/-- Alias order for `overall` (groq_service.py lines 284-290). -/
def overall_keys : List (List Char) :=
  ["overall_score".toList, "Overall Match Score".toList, "Match Score".toList,
   "match_score".toList]

/-- Alias order for `skills` (lines 292-296). -/
def skills_keys : List (List Char) := ["skills_match".toList, "Skills Match".toList]

/-- Alias order for `experience` (lines 298-302). -/
def experience_keys : List (List Char) :=
  ["experience_match".toList, "Experience Match".toList]

/-- Alias order for `education` (lines 304-308). -/
def education_keys : List (List Char) :=
  ["education_match".toList, "Education Match".toList]

/-- Alias order for `strengths` (lines 310-318). -/
def strengths_keys : List (List Char) :=
  ["matching_skills".toList, "strong_skills".toList, "matching_strong_skills".toList,
   "Matching/Strong Skills".toList, "Matching / strong skills".toList,
   "Matching Skills".toList]

/-- Alias order for `missing` (lines 320-327). -/
def missing_keys : List (List Char) :=
  ["missing_skills".toList, "missing_weak_skills".toList, "Missing/Weak Skills".toList,
   "Missing / weak skills".toList, "Missing Skills".toList]

/-- Alias order for `summary` (lines 329-334). -/
def summary_keys : List (List Char) :=
  ["skill_gap_analysis_summary".toList, "Summary".toList, "Skill Gap Summary".toList]

/-- Alias order for `query` (lines 336-342). -/
def query_keys : List (List Char) :=
  ["youtube_search_query".toList, "Search Query".toList, "YouTube search query".toList,
   "YouTube Search Query".toList]

/-- Modelled from the claim's words (C4 as stated): return the value of
the first alias whose value is present and non-null, treating a value of
0, null, or an absent key as "try the next alias", and the hard default
only when every alias is exhausted. -/
def spec_first_non_null (d : Payload) : List (List Char) → J → J
  | [], dflt => dflt
  | k :: ks, dflt =>
      match ((d.find? (fun kv => kv.1 == k)).map (fun kv => kv.2) : Option J) with
      | none => spec_first_non_null d ks dflt
      | some .null => spec_first_non_null d ks dflt
      | some (.num 0) => spec_first_non_null d ks dflt
      | some v => v

/-- The resolution rule the code's `or`-chains implement: the first
truthy value in alias order (a falsy value of any shape - null, 0,
false, the empty string, the empty list, the empty object - moves on to
the next alias), the hard default once all aliases are exhausted. -/
def first_truthy (d : Payload) : List (List Char) → J → J
  | [], dflt => dflt
  | k :: ks, dflt => if truthy (pyGet d k) then pyGet d k else first_truthy d ks dflt

/-- Claim C4 (amended): for each of the eight logical fields the code's
`or`-chain returns the first truthy value across the field's alias list
- skipping any falsy value (null, 0, false, empty string, empty list or
object, absent key), not only 0/null/missing - and the hard default only
at exhaustion.  (The original claim's "first present and non-null"
reading fails on present falsy values such as the empty string; see the
counterexample.) -/
theorem C4_alias_resolution (d : Payload) :
    resolve_overall d = first_truthy d overall_keys (.num 0) ∧
    resolve_skills d = first_truthy d skills_keys (.num 0) ∧
    resolve_experience d = first_truthy d experience_keys (.num 0) ∧
    resolve_education d = first_truthy d education_keys (.num 0) ∧
    resolve_strengths d = first_truthy d strengths_keys (.arr []) ∧
    resolve_missing d = first_truthy d missing_keys (.arr []) ∧
    resolve_summary d = first_truthy d summary_keys (.str []) ∧
    resolve_query d = first_truthy d query_keys (.str []) :=
  ⟨rfl, rfl, rfl, rfl, rfl, rfl, rfl, rfl⟩

/-- A payload whose first summary alias holds the empty string and whose
second alias holds a real summary. -/
def dC4 : Payload :=
  [("skill_gap_analysis_summary".toList, .str []),
   ("Summary".toList, .str "real summary".toList)]

/-- Counterexample to C4 as stated: on `dC4` the first alias is present
and non-null (and not 0), so the claimed rule returns its value `""`,
but the code skips the falsy empty string and returns the second
alias's value. -/
theorem C4_counterexample :
    spec_first_non_null dC4 summary_keys (.str []) = .str [] ∧
    resolve_summary dC4 = .str "real summary".toList ∧
    spec_first_non_null dC4 summary_keys (.str []) ≠ resolve_summary dC4 := by
  refine ⟨rfl, rfl, ?_⟩
  intro hcontra
  rw [show spec_first_non_null dC4 summary_keys (.str []) = .str [] from rfl] at hcontra
  rw [show resolve_summary dC4 = .str "real summary".toList from rfl] at hcontra
  simp at hcontra

/-! ### Claim C5 - the video-host check on search entries -/

/-- A search body holding one entry with a non-YouTube host and one with
a YouTube host. -/
def bodyC5 : Payload :=
  [("videos".toList, .arr
    [.obj [("title".toList, .str "Bad".toList),
           ("link".toList, .str "https://notyoutube.com/x".toList),
           ("channel".toList, .str "C1".toList),
           ("duration".toList, .str "1:00".toList)],
     .obj [("title".toList, .str "Good".toList),
           ("link".toList, .str "https://youtube.com/watch?v=ok".toList),
           ("channel".toList, .str "C2".toList),
           ("duration".toList, .str "2:00".toList)]])]

/-- Claim C5 fails on the code, and the code contradicts its own intent
(the validator's docstring "Ensure link is a valid YouTube URL" and the
repository's test for invalid links): the adapter returns BOTH entries,
because the host check is bare substring containment and
`"youtube.com"` is a substring of `"notyoutube.com"`, so the
`https://notyoutube.com/x` entry passes validation and is kept. -/
theorem C5_notyoutube_kept :
    search_youtube_videos 200 bodyC5 10 = .ok
      [⟨"Bad".toList, "https://notyoutube.com/x".toList, "C1".toList, "1:00".toList, none⟩,
       ⟨"Good".toList, "https://youtube.com/watch?v=ok".toList, "C2".toList,
        "2:00".toList, none⟩] ∧
    isSub "youtube.com".toList "https://notyoutube.com/x".toList = true := by
  refine ⟨by decide, by decide⟩

/-! ### Claim C6 - Stage 1 is invariant under fence wrapping -/

def obraceC : Char := Char.ofNat 123

def cbraceC : Char := Char.ofNat 125

def wrap_json_fence (t : List Char) : List Char :=
  jsonFenceMark ++ '\n' :: t ++ '\n' :: fenceMark

def wrap_bare_fence (t : List Char) : List Char :=
  fenceMark ++ '\n' :: t ++ '\n' :: fenceMark

theorem stripLeft_cons_not_space {c : Char} (h : isPySpace c = false) (l : List Char) :
    stripLeft (c :: l) = c :: l := by
  simp [stripLeft, List.dropWhile_cons, h]

theorem stripLeft_cons_space {c : Char} (h : isPySpace c = true) (l : List Char) :
    stripLeft (c :: l) = stripLeft l := by
  simp [stripLeft, List.dropWhile_cons, h]

theorem stripRight_append_not_space {c : Char} (h : isPySpace c = false) (l : List Char) :
    stripRight (l ++ [c]) = l ++ [c] := by
  simp [stripRight, List.reverse_append, stripLeft_cons_not_space h]

theorem stripRight_append_space {c : Char} (h : isPySpace c = true) (l : List Char) :
    stripRight (l ++ [c]) = stripRight l := by
  simp [stripRight, List.reverse_append, stripLeft_cons_space h]

theorem startsW_append_self (p l : List Char) : startsW p (p ++ l) = true := by
  induction p with
  | nil => rfl
  | cons c cs ih => simp [startsW, ih]

theorem pyStrip_of_ends {a b : Char} (ha : isPySpace a = false) (hb : isPySpace b = false)
    (m : List Char) : pyStrip (a :: m ++ [b]) = a :: m ++ [b] := by
  have h1 : stripRight ((a :: m) ++ [b]) = (a :: m) ++ [b] := stripRight_append_not_space hb _
  unfold pyStrip
  rw [show a :: m ++ [b] = (a :: m) ++ [b] from rfl, h1]
  exact stripLeft_cons_not_space ha _

theorem stage1_clean_json_text {t : List Char} (m : List Char)
    (ht : t = obraceC :: m ++ [cbraceC]) : stage1_clean t = t := by
  subst ht
  have hstrip : pyStrip (obraceC :: m ++ [cbraceC]) = obraceC :: m ++ [cbraceC] :=
    pyStrip_of_ends (by decide) (by decide) m
  have hjf : startsW jsonFenceMark (obraceC :: m ++ [cbraceC]) = false := by
    simp [jsonFenceMark, startsW, show (bq == obraceC) = false from by decide]
  have hf : startsW fenceMark (obraceC :: m ++ [cbraceC]) = false := by
    simp [fenceMark, startsW, show (bq == obraceC) = false from by decide]
  have hrev : (obraceC :: m ++ [cbraceC]).reverse = cbraceC :: (m.reverse ++ [obraceC]) := by
    simp
  have hef : endsW fenceMark (obraceC :: m ++ [cbraceC]) = false := by
    unfold endsW
    rw [hrev]
    simp [fenceMark, startsW, show (bq == cbraceC) = false from by decide]
  unfold stage1_clean
  rw [hstrip]
  rw [show fence_step1 (obraceC :: m ++ [cbraceC]) = obraceC :: m ++ [cbraceC] from by
    unfold fence_step1
    rw [hjf]
    simp]
  rw [show fence_step2 (obraceC :: m ++ [cbraceC]) = obraceC :: m ++ [cbraceC] from by
    unfold fence_step2
    rw [hf]
    simp]
  rw [show fence_step3 (obraceC :: m ++ [cbraceC]) = obraceC :: m ++ [cbraceC] from by
    unfold fence_step3
    rw [hef]
    simp]
  exact hstrip

theorem pyStrip_newline_sandwich {a b : Char} (ha : isPySpace a = false)
    (hb : isPySpace b = false) (m : List Char) :
    pyStrip ('\n' :: ((a :: m ++ [b]) ++ ['\n'])) = a :: m ++ [b] := by
  unfold pyStrip
  rw [show ('\n' :: ((a :: m ++ [b]) ++ ['\n'])) = ('\n' :: (a :: m ++ [b])) ++ ['\n'] from by
    simp]
  rw [stripRight_append_space (by decide)]
  rw [show ('\n' :: (a :: m ++ [b])) = ('\n' :: a :: m) ++ [b] from by simp]
  rw [stripRight_append_not_space hb]
  rw [show (('\n' :: a :: m) ++ [b]) = '\n' :: (a :: (m ++ [b])) from by simp]
  rw [stripLeft_cons_space (by decide)]
  exact stripLeft_cons_not_space ha _

theorem stage1_clean_wrap_json {a b : Char} (ha : isPySpace a = false)
    (hb : isPySpace b = false) (m : List Char) :
    stage1_clean (wrap_json_fence (a :: m ++ [b])) = a :: m ++ [b] := by
  have hw : wrap_json_fence (a :: m ++ [b])
      = jsonFenceMark ++ ('\n' :: ((a :: m ++ [b]) ++ ('\n' :: fenceMark))) := by
    simp [wrap_json_fence]
  unfold stage1_clean
  rw [hw]
  have hstrip0 : pyStrip (jsonFenceMark ++ ('\n' :: ((a :: m ++ [b]) ++ ('\n' :: fenceMark))))
      = jsonFenceMark ++ ('\n' :: ((a :: m ++ [b]) ++ ('\n' :: fenceMark))) := by
    unfold pyStrip
    rw [show jsonFenceMark ++ ('\n' :: ((a :: m ++ [b]) ++ ('\n' :: fenceMark)))
        = (jsonFenceMark ++ ('\n' :: ((a :: m ++ [b]) ++ ['\n', bq, bq]))) ++ [bq] from by
      simp [jsonFenceMark, fenceMark]]
    rw [stripRight_append_not_space (by decide)]
    rw [show ((jsonFenceMark ++ ('\n' :: ((a :: m ++ [b]) ++ ['\n', bq, bq]))) ++ [bq])
        = bq :: (([bq, bq, 'j', 's', 'o', 'n'] ++
            ('\n' :: ((a :: m ++ [b]) ++ ['\n', bq, bq]))) ++ [bq]) from by
      simp [jsonFenceMark]]
    rw [stripLeft_cons_not_space (by decide)]
  rw [hstrip0]
  rw [show fence_step1 (jsonFenceMark ++ ('\n' :: ((a :: m ++ [b]) ++ ('\n' :: fenceMark))))
      = '\n' :: ((a :: m ++ [b]) ++ ('\n' :: fenceMark)) from by
    unfold fence_step1
    rw [startsW_append_self]
    simp [jsonFenceMark]]
  rw [show fence_step2 ('\n' :: ((a :: m ++ [b]) ++ ('\n' :: fenceMark)))
      = '\n' :: ((a :: m ++ [b]) ++ ('\n' :: fenceMark)) from by
    unfold fence_step2
    rw [show startsW fenceMark ('\n' :: ((a :: m ++ [b]) ++ ('\n' :: fenceMark))) = false from by
      simp [fenceMark, startsW, show (bq == '\n') = false from by decide]]
    simp]
  rw [show fence_step3 ('\n' :: ((a :: m ++ [b]) ++ ('\n' :: fenceMark)))
      = '\n' :: ((a :: m ++ [b]) ++ ['\n']) from by
    unfold fence_step3
    have hrev : ('\n' :: ((a :: m ++ [b]) ++ ('\n' :: fenceMark))).reverse
        = fenceMark ++ ('\n' :: ((a :: m ++ [b]).reverse ++ ['\n'])) := by
      simp [fenceMark]
    rw [show endsW fenceMark ('\n' :: ((a :: m ++ [b]) ++ ('\n' :: fenceMark))) = true from by
      unfold endsW
      rw [hrev]
      rw [show fenceMark.reverse = fenceMark from rfl]
      exact startsW_append_self _ _]
    rw [if_pos rfl]
    unfold dropRightN
    rw [hrev]
    rw [show (fenceMark ++ ('\n' :: ((a :: m ++ [b]).reverse ++ ['\n']))).drop 3
        = '\n' :: ((a :: m ++ [b]).reverse ++ ['\n']) from by
      simp [fenceMark]]
    simp]
  exact pyStrip_newline_sandwich ha hb m

theorem stage1_clean_wrap_bare {a b : Char} (ha : isPySpace a = false)
    (hb : isPySpace b = false) (m : List Char) :
    stage1_clean (wrap_bare_fence (a :: m ++ [b])) = a :: m ++ [b] := by
  have hw : wrap_bare_fence (a :: m ++ [b])
      = fenceMark ++ ('\n' :: ((a :: m ++ [b]) ++ ('\n' :: fenceMark))) := by
    simp [wrap_bare_fence]
  unfold stage1_clean
  rw [hw]
  have hstrip0 : pyStrip (fenceMark ++ ('\n' :: ((a :: m ++ [b]) ++ ('\n' :: fenceMark))))
      = fenceMark ++ ('\n' :: ((a :: m ++ [b]) ++ ('\n' :: fenceMark))) := by
    unfold pyStrip
    rw [show fenceMark ++ ('\n' :: ((a :: m ++ [b]) ++ ('\n' :: fenceMark)))
        = (fenceMark ++ ('\n' :: ((a :: m ++ [b]) ++ ['\n', bq, bq]))) ++ [bq] from by
      simp [fenceMark]]
    rw [stripRight_append_not_space (by decide)]
    rw [show ((fenceMark ++ ('\n' :: ((a :: m ++ [b]) ++ ['\n', bq, bq]))) ++ [bq])
        = bq :: (([bq, bq] ++
            ('\n' :: ((a :: m ++ [b]) ++ ['\n', bq, bq]))) ++ [bq]) from by
      simp [fenceMark]]
    rw [stripLeft_cons_not_space (by decide)]
  rw [hstrip0]
  rw [show fence_step1 (fenceMark ++ ('\n' :: ((a :: m ++ [b]) ++ ('\n' :: fenceMark))))
      = fenceMark ++ ('\n' :: ((a :: m ++ [b]) ++ ('\n' :: fenceMark))) from by
    unfold fence_step1
    rw [show startsW jsonFenceMark (fenceMark ++ ('\n' :: ((a :: m ++ [b]) ++ ('\n' :: fenceMark))))
        = false from by
      simp [fenceMark, jsonFenceMark, startsW, show (bq == bq) = true from rfl,
        show ('j' == '\n') = false from by decide]]
    simp]
  rw [show fence_step2 (fenceMark ++ ('\n' :: ((a :: m ++ [b]) ++ ('\n' :: fenceMark))))
      = '\n' :: ((a :: m ++ [b]) ++ ('\n' :: fenceMark)) from by
    unfold fence_step2
    rw [startsW_append_self]
    simp [fenceMark]]
  rw [show fence_step3 ('\n' :: ((a :: m ++ [b]) ++ ('\n' :: fenceMark)))
      = '\n' :: ((a :: m ++ [b]) ++ ['\n']) from by
    unfold fence_step3
    have hrev : ('\n' :: ((a :: m ++ [b]) ++ ('\n' :: fenceMark))).reverse
        = fenceMark ++ ('\n' :: ((a :: m ++ [b]).reverse ++ ['\n'])) := by
      simp [fenceMark]
    rw [show endsW fenceMark ('\n' :: ((a :: m ++ [b]) ++ ('\n' :: fenceMark))) = true from by
      unfold endsW
      rw [hrev]
      rw [show fenceMark.reverse = fenceMark from rfl]
      exact startsW_append_self _ _]
    rw [if_pos rfl]
    unfold dropRightN
    rw [hrev]
    rw [show (fenceMark ++ ('\n' :: ((a :: m ++ [b]).reverse ++ ['\n']))).drop 3
        = '\n' :: ((a :: m ++ [b]).reverse ++ ['\n']) from by
      simp [fenceMark]]
    simp]
  exact pyStrip_newline_sandwich ha hb m

/-- Claim C6: for a JSON object text (it opens with a brace and closes
with a brace), wrapping it in leading/trailing code-fence markers -
either the `json` fence or the bare fence, with the newline layout the
model emits - leaves the Stage 1 cleaned text unchanged, so `json.loads`
parses the wrapped and unwrapped inputs to exactly the same object. -/
theorem C6_fence_idempotent (t : List Char)
    (h : ∃ m, t = obraceC :: m ++ [cbraceC]) :
    stage1_clean (wrap_json_fence t) = stage1_clean t ∧
    stage1_clean (wrap_bare_fence t) = stage1_clean t := by
  obtain ⟨m, hm⟩ := h
  subst hm
  rw [stage1_clean_json_text m rfl]
  constructor
  · exact stage1_clean_wrap_json (by decide) (by decide) m
  · exact stage1_clean_wrap_bare (by decide) (by decide) m

/-- Witness for C6 at the concrete object text `\x7b"a": 1\x7d`. -/
theorem C6_witness :
    (∃ m, "\x7b\x22a\x22: 1\x7d".toList = obraceC :: m ++ [cbraceC]) ∧
    stage1_clean (wrap_json_fence "\x7b\x22a\x22: 1\x7d".toList)
      = stage1_clean "\x7b\x22a\x22: 1\x7d".toList ∧
    stage1_clean (wrap_bare_fence "\x7b\x22a\x22: 1\x7d".toList)
      = stage1_clean "\x7b\x22a\x22: 1\x7d".toList :=
  ⟨⟨"\x22a\x22: 1".toList, by decide⟩,
   (C6_fence_idempotent "\x7b\x22a\x22: 1\x7d".toList
     ⟨"\x22a\x22: 1".toList, by decide⟩).1,
   (C6_fence_idempotent "\x7b\x22a\x22: 1\x7d".toList
     ⟨"\x22a\x22: 1".toList, by decide⟩).2⟩

/-! ### Claim C7 - Stage 3 shape coercion -/

/-- Claim C7: a plain string entry passes through unchanged; a structured
entry with a (non-empty string) name and a numeric importance weight `n`
renders as `"<name> (importance <n>/10)"`, and as just `"<name>"` when
the weight is absent (`None`); any other entry shape is stringified
verbatim with `str`; and a bare string as the whole list becomes the
singleton list of that string. -/
theorem C7_stage3_coercion :
    (∀ s, coerce_skill_item (.str s) = .str s) ∧
    (∀ kvs nm imp, pyGet kvs "name".toList = .str nm → nm ≠ [] →
      pyGet kvs "importance".toList = J.num imp →
      coerce_skill_item (.obj kvs)
        = .str (nm ++ " (importance ".toList ++ intRepr imp ++ "/10)".toList)) ∧
    (∀ kvs nm, pyGet kvs "name".toList = .str nm → nm ≠ [] →
      pyGet kvs "importance".toList = .null →
      coerce_skill_item (.obj kvs) = .str nm) ∧
    (∀ j, (∀ s, j ≠ .str s) → (∀ kvs, j ≠ .obj kvs) →
      coerce_skill_item j = .str (pyStr j)) ∧
    (∀ s, normalize_skill_list (.str s) = [.str s]) := by
  refine ⟨fun s => rfl, ?_, ?_, ?_, fun s => rfl⟩
  · intro kvs nm imp hn hne hi
    have h0 : coerce_skill_item (.obj kvs)
        = match pyGet kvs "importance".toList with
          | .null => skill_entry_name kvs
          | imp2 => render_with_importance (skill_entry_name kvs) imp2 := rfl
    rw [h0, hi]
    have hname : skill_entry_name kvs = .str nm := by
      unfold skill_entry_name
      rw [hn]
      unfold orJ
      rw [if_pos (by simp [truthy, hne])]
    show render_with_importance (skill_entry_name kvs) (J.num imp) = _
    rw [hname]
    rfl
  · intro kvs nm hn hne hi
    have h0 : coerce_skill_item (.obj kvs)
        = match pyGet kvs "importance".toList with
          | .null => skill_entry_name kvs
          | imp2 => render_with_importance (skill_entry_name kvs) imp2 := rfl
    rw [h0, hi]
    show skill_entry_name kvs = _
    unfold skill_entry_name
    rw [hn]
    unfold orJ
    rw [if_pos (by simp [truthy, hne])]
  · intro j h1 h2
    cases j with
    | str s => exact absurd rfl (h1 s)
    | obj kvs => exact absurd rfl (h2 kvs)
    | null => rfl
    | jbool b => cases b <;> rfl
    | num n => rfl
    | arr xs => rfl

/-- Witness for C7: each coercion case applied at a concrete entry. -/
theorem C7_witness :
    coerce_skill_item (.str "Python".toList) = .str "Python".toList ∧
    coerce_skill_item (.obj [("name".toList, .str "K8s".toList),
      ("importance".toList, .num 8)]) = .str "K8s (importance 8/10)".toList ∧
    coerce_skill_item (.obj [("name".toList, .str "Docker".toList)])
      = .str "Docker".toList ∧
    coerce_skill_item (.num 7) = .str (pyStr (.num 7)) ∧
    normalize_skill_list (.str "SQL".toList) = [.str "SQL".toList] :=
  ⟨C7_stage3_coercion.1 "Python".toList,
   by
     rw [C7_stage3_coercion.2.1 [("name".toList, J.str "K8s".toList),
       ("importance".toList, J.num 8)] "K8s".toList 8 rfl (by decide) rfl]
     exact congrArg J.str (by decide),
   C7_stage3_coercion.2.2.1 _ "Docker".toList rfl (by decide) rfl,
   C7_stage3_coercion.2.2.2.1 (.num 7) (fun s h => nomatch h) (fun kvs h => nomatch h),
   C7_stage3_coercion.2.2.2.2 "SQL".toList⟩

/-! ### Claim C9 - the catch-all error classifier -/

theorem startsW_refl (l : List Char) : startsW l l = true := by
  have h := startsW_append_self l []
  simpa using h

theorem isSub_self (l : List Char) : isSub l l = true := by
  cases l with
  | nil => rfl
  | cons c cs => simp [isSub, startsW_refl]

theorem isSub_append_left (a l : List Char) : isSub l (a ++ l) = true := by
  induction a with
  | nil => simpa using isSub_self l
  | cons c cs ih => simp [isSub, ih]

/-- The first classifier condition ("authentication" / "api key" / "401"). -/
def auth_cond (m : List Char) : Bool :=
  isSub "authentication".toList m || isSub "api key".toList m || isSub "401".toList m

/-- The second classifier condition ("rate limit" / "429"). -/
def rate_cond (m : List Char) : Bool :=
  isSub "rate limit".toList m || isSub "429".toList m

/-- The third classifier condition ("timeout"). -/
def timeout_cond (m : List Char) : Bool := isSub "timeout".toList m

/-- The fourth classifier condition ("model" together with "not found"). -/
def model_cond (m : List Char) : Bool :=
  isSub "model".toList m && isSub "not found".toList m

/-- Claim C9: the catch-all handler classifies a failure message by
case-insensitive containment in the if/elif order of the source -
authentication/api key/401 to the auth category, then rate limit/429,
then timeout, then model together with not found - and an unmatched
message becomes the Unknown category with the original message preserved
verbatim inside the raised text. -/
theorem C9_error_classification (msg : List Char) :
    (classify_error msg = .authError ↔ auth_cond (lowerL msg) = true) ∧
    (classify_error msg = .rateLimited ↔
      (auth_cond (lowerL msg) = false ∧ rate_cond (lowerL msg) = true)) ∧
    (classify_error msg = .timeoutError ↔
      (auth_cond (lowerL msg) = false ∧ rate_cond (lowerL msg) = false ∧
       timeout_cond (lowerL msg) = true)) ∧
    (classify_error msg = .modelUnavailable ↔
      (auth_cond (lowerL msg) = false ∧ rate_cond (lowerL msg) = false ∧
       timeout_cond (lowerL msg) = false ∧ model_cond (lowerL msg) = true)) ∧
    (auth_cond (lowerL msg) = false → rate_cond (lowerL msg) = false →
     timeout_cond (lowerL msg) = false → model_cond (lowerL msg) = false →
     classify_error msg = .unknown ("Analysis failed: ".toList ++ msg) ∧
     isSub msg ("Analysis failed: ".toList ++ msg) = true) := by
  have hc : classify_error msg =
      if auth_cond (lowerL msg) then .authError
      else if rate_cond (lowerL msg) then .rateLimited
      else if timeout_cond (lowerL msg) then .timeoutError
      else if model_cond (lowerL msg) then .modelUnavailable
      else .unknown ("Analysis failed: ".toList ++ msg) := rfl
  have hsub0 : isSub msg ("Analysis failed: ".toList ++ msg) = true := isSub_append_left _ _
  have hsub : isSub msg ('A' :: 'n' :: 'a' :: 'l' :: 'y' :: 's' :: 'i' :: 's' :: ' ' ::
      'f' :: 'a' :: 'i' :: 'l' :: 'e' :: 'd' :: ':' :: ' ' :: msg) = true := by
    simpa using hsub0
  rw [hc]
  cases ha : auth_cond (lowerL msg) <;> cases hr : rate_cond (lowerL msg) <;>
    cases ht : timeout_cond (lowerL msg) <;> cases hm : model_cond (lowerL msg) <;>
    simp [hsub]

/-- Witness for C9 at the concrete message "Connection timeout". -/
theorem C9_witness :
    auth_cond (lowerL "Connection timeout".toList) = false ∧
    rate_cond (lowerL "Connection timeout".toList) = false ∧
    timeout_cond (lowerL "Connection timeout".toList) = true ∧
    classify_error "Connection timeout".toList = .timeoutError :=
  ⟨by decide, by decide, by decide,
   ((C9_error_classification "Connection timeout".toList).2.2.1).mpr
     ⟨by decide, by decide, by decide⟩⟩

/-! ### Claim C10 - entrywise tolerance of the search adapter -/

/-- Unfolding equation for `mk_video` on a dict entry. -/
theorem mk_video_obj (kvs : Payload) :
    mk_video (.obj kvs)
      = (pydantic_str (pyGetD kvs "title".toList (.str "N/A".toList))).bind (fun t =>
        (pydantic_str (pyGetD kvs "link".toList (.str "#".toList))).bind (fun l =>
        (pydantic_str (pyGetD kvs "channel".toList (.str "N/A".toList))).bind (fun c =>
        (pydantic_str (pyGetD kvs "duration".toList (.str "N/A".toList))).bind (fun du =>
        (validate_youtube_link l).bind (fun l2 =>
        match pyGetD kvs "imageUrl".toList .null with
        | .null => some ⟨t, l2, c, du, none⟩
        | v => (pydantic_str v).map (fun th => ⟨t, l2, c, du, some th⟩)))))) := rfl

/-- Claim C10 (amended): for a response with status exactly 200 whose
body maps `videos` to a list, the call always succeeds with the
entrywise construction of the truncated list - a malformed entry is
dropped by `mk_video` alone and never fails the call - and any entry
whose link is a non-empty string without a video-host token is dropped.
(Entries merely missing title, channel or duration are kept with `"N/A"`
defaults, and a non-200 2xx status fails the whole call; see the
counterexample.) -/
theorem C10_entrywise_drop (status : Nat) (results : Payload) (n : Nat) (vids : List J)
    (h200 : status = 200)
    (hv : ((results.find? (fun kv => kv.1 == "videos".toList)).map (fun kv => kv.2) : Option J)
        = some (.arr vids)) :
    search_youtube_videos status results n = .ok ((vids.take n).filterMap mk_video) ∧
    (∀ kvs l, pyGetD kvs "link".toList (.str "#".toList) = .str l → l ≠ [] →
      isSub "youtube.com".toList l = false → isSub "youtu.be".toList l = false →
      mk_video (.obj kvs) = none) := by
  constructor
  · subst h200
    unfold search_youtube_videos
    rw [if_neg (by omega)]
    rw [hv]
  · intro kvs l hl hlne hy1 hy2
    have hlempty : l.isEmpty = false := by
      cases l with
      | nil => exact absurd rfl hlne
      | cons c t => rfl
    have hval : validate_youtube_link l = none := by
      unfold validate_youtube_link
      rw [if_pos (by rw [hlempty, hy1, hy2]; rfl)]
    rw [mk_video_obj]
    cases ht : pydantic_str (pyGetD kvs "title".toList (.str "N/A".toList)) with
    | none => rfl
    | some t =>
      simp only [Option.some_bind]
      rw [hl]
      rw [show pydantic_str (J.str l) = some l from rfl]
      simp only [Option.some_bind]
      cases hc : pydantic_str (pyGetD kvs "channel".toList (.str "N/A".toList)) with
      | none => rfl
      | some c =>
        simp only [Option.some_bind]
        cases hd : pydantic_str (pyGetD kvs "duration".toList (.str "N/A".toList)) with
        | none => rfl
        | some du =>
          simp only [Option.some_bind]
          rw [hval]
          rfl

/-- A search body with one entry that has a valid link but no title. -/
def body10 : Payload :=
  [("videos".toList, .arr
    [.obj [("link".toList, .str "https://youtube.com/watch?v=a1".toList),
           ("channel".toList, .str "ChanX".toList)]])]

/-- Counterexample to C10 as stated: the entry of `body10` misses the
required field `title`, yet the call keeps it (with the `"N/A"` default)
instead of dropping it; and a 201 status - a 2xx status - fails the
whole call instead of returning the remaining entries. -/
theorem C10_counterexample :
    search_youtube_videos 200 body10 5 = .ok
      [⟨"N/A".toList, "https://youtube.com/watch?v=a1".toList, "ChanX".toList,
        "N/A".toList, none⟩] ∧
    search_youtube_videos 201 body10 5 = .error (.apiError 201) := by
  refine ⟨by decide, by decide⟩

/-- A search body with one invalid-host entry and one valid entry. -/
def bodyW10 : Payload :=
  [("videos".toList, .arr
    [.obj [("title".toList, .str "Elsewhere".toList),
           ("link".toList, .str "https://vimeo.example/v".toList),
           ("channel".toList, .str "V".toList),
           ("duration".toList, .str "3:00".toList)],
     .obj [("title".toList, .str "Good".toList),
           ("link".toList, .str "https://youtu.be/ok2".toList),
           ("channel".toList, .str "C2".toList),
           ("duration".toList, .str "2:00".toList)]])]

/-- The decoded `videos` list of `bodyW10`. -/
def vidsW10 : List J :=
  [.obj [("title".toList, .str "Elsewhere".toList),
         ("link".toList, .str "https://vimeo.example/v".toList),
         ("channel".toList, .str "V".toList),
         ("duration".toList, .str "3:00".toList)],
   .obj [("title".toList, .str "Good".toList),
         ("link".toList, .str "https://youtu.be/ok2".toList),
         ("channel".toList, .str "C2".toList),
         ("duration".toList, .str "2:00".toList)]]

/-- Witness for the amended C10: on `bodyW10` the invalid-host entry is
dropped and the call still succeeds with the remaining entry. -/
theorem C10_witness :
    search_youtube_videos 200 bodyW10 5 = .ok
      [⟨"Good".toList, "https://youtu.be/ok2".toList, "C2".toList, "2:00".toList, none⟩] ∧
    mk_video (.obj [("title".toList, .str "Elsewhere".toList),
           ("link".toList, .str "https://vimeo.example/v".toList),
           ("channel".toList, .str "V".toList),
           ("duration".toList, .str "3:00".toList)]) = none := by
  constructor
  · rw [(C10_entrywise_drop 200 bodyW10 5 vidsW10 rfl rfl).1]
    decide
  · exact (C10_entrywise_drop 200 bodyW10 5 vidsW10 rfl rfl).2
      [("title".toList, .str "Elsewhere".toList),
       ("link".toList, .str "https://vimeo.example/v".toList),
       ("channel".toList, .str "V".toList),
       ("duration".toList, .str "3:00".toList)]
      "https://vimeo.example/v".toList rfl (by decide) (by decide) (by decide)
